import Mathlib

/-!
Verification development for the pipeline status normalization and promotion
orchestration engine of the tssc-test repository.  The TypeScript sources are
shallowly embedded below: pure functions become Lean functions, collaborator
objects (the raw Azure client, the Git provider, the ArgoCD controller)
become structures of oracle functions returning `Except`, and the stateful
promotion workflow becomes a function that also emits the trace of stages it
started.  JavaScript string operations and truthiness are modelled
explicitly.
-/

namespace Tssc

/-! ## JavaScript string and truthiness primitives -/

/-- ASCII lower-casing of one character, as `String.prototype.toLowerCase`
acts on the ASCII range used by commit SHAs and trigger descriptions. -/
def lcChar (c : Char) : Char :=
  if 'A' ≤ c ∧ c ≤ 'Z' then Char.ofNat (c.toNat + 32) else c

/-- JS `s.toLowerCase()`. -/
def jsToLower (s : String) : String := ⟨s.data.map lcChar⟩

/-- Characters removed by JS `String.prototype.trim`. -/
def jsIsWhitespace (c : Char) : Bool :=
  c = ' ' || c = '\t' || c = '\n' || c = '\r'

/-- JS `s.trim()`. -/
def jsTrim (s : String) : String :=
  ⟨((s.data.dropWhile jsIsWhitespace).reverse.dropWhile jsIsWhitespace).reverse⟩

/-- JS `s.startsWith(pre)`. -/
def jsStartsWith (s pre : String) : Bool := pre.data.isPrefixOf s.data

/-- Does `l` contain `sub` as a contiguous sublist? (helper for JS
`String.prototype.includes`). -/
def listContainsSub (sub : List Char) : List Char → Bool
  | [] => sub.isEmpty
  | c :: rest => sub.isPrefixOf (c :: rest) || listContainsSub sub rest

/-- JS `s.includes(sub)`. -/
def jsIncludes (s sub : String) : Bool := listContainsSub sub.data s.data

/-- JS truthiness of an optional string: `undefined`, `null` and the empty
string are falsy. -/
def truthy : Option String → Bool
  | some s => !(s == (""))
  | none => false

/-- JS `a || b` on optional strings: keeps `a` when truthy, else yields `b`. -/
def orTruthy (a b : Option String) : Option String :=
  if truthy a then a else b

/-! ## Canonical status model (`PipelineStatus`, `EventType`, `Pipeline`)
from `rhtap/core/integration/ci`. -/

inductive PipelineStatus where
  | pending
  | running
  | success
  | failure
  | cancelled
  | unknown
  deriving DecidableEq, Repr

inductive EventType where
  | pullRequest
  | push
  deriving DecidableEq, Repr

/-- Canonical run record produced by a CI provider facade. -/
structure Pipeline where
  id : String
  ciType : String
  repositoryName : String
  status : PipelineStatus
  name : Option String := none
  url : Option String := none
  startTime : Option String := none
  endTime : Option String := none
  sha : Option String := none
  deriving DecidableEq, Repr

/-! ## Jenkins data model (`api/ci/jenkinsClient` section) -/

/-- `JenkinsBuildResult` enum. -/
inductive JenkinsBuildResult where
  | success
  | failure
  | unstable
  | aborted
  | notBuilt
  deriving DecidableEq, Repr

/-- `JenkinsBuildTrigger` enum. -/
inductive JenkinsBuildTrigger where
  | unknown
  | pullRequest
  | push
  | manual
  | scheduled
  | api
  deriving DecidableEq, Repr

/-- `lastBuiltRevision` / `revision` objects carrying a `SHA1` field. -/
structure JenkinsRevision where
  sha1 : Option String := none
  deriving DecidableEq, Repr

/-- One entry of the `buildsByBranchName` map: branch name and revision. -/
structure JenkinsBranchBuild where
  branch : String
  revision : Option JenkinsRevision := none
  deriving DecidableEq, Repr

/-- One element of an action `parameters` array. -/
structure JenkinsParameter where
  name : Option String := none
  value : Option String := none
  deriving DecidableEq, Repr

/-- `action.pullRequest.source.commit` nesting. -/
structure JenkinsPRSource where
  commit : Option String := none
  deriving DecidableEq, Repr

structure JenkinsPRInfo where
  source : Option JenkinsPRSource := none
  deriving DecidableEq, Repr

/-- One element of a build `actions` array; only the fields the client
inspects are modelled. -/
structure JenkinsAction where
  class? : Option String := none
  lastBuiltRevision : Option JenkinsRevision := none
  buildsByBranchName : Option (List JenkinsBranchBuild) := none
  parameters : Option (List JenkinsParameter) := none
  pullRequest : Option JenkinsPRInfo := none
  deriving DecidableEq, Repr

/-- One element of a build `causes` array. -/
structure JenkinsCause where
  shortDescription : Option String := none
  class? : Option String := none
  deriving DecidableEq, Repr

/-- `JenkinsBuild` interface (fields used by the embedded methods). -/
structure JenkinsBuild where
  number : Nat
  building : Bool
  result : Option JenkinsBuildResult := none
  actions : List JenkinsAction := []
  causes : Option (List JenkinsCause) := none
  displayName : Option String := none
  description : Option String := none
  url : String := ("")
  deriving DecidableEq, Repr

/-- A `jobInfo.builds` element: the build reference carrying the number. -/
structure JenkinsBuildRef where
  number : Nat
  deriving DecidableEq, Repr

/-! ## Jenkins status mapping (`convertBuildToPipeline`) -/

/-- Status computation of `JenkinsClient.convertBuildToPipeline`: starts at
`UNKNOWN`; a building run is `RUNNING`; otherwise a truthy `result` is mapped
through the switch (UNSTABLE and ABORTED collapse to `FAILURE`, `NOT_BUILT`
to `PENDING`); a missing result leaves `UNKNOWN`.  The enclosing method then
hands this status to `Pipeline.createJenkinsPipeline`, a constructor of the
canonical record. -/
def convertBuildToPipelineStatus (build : JenkinsBuild) : PipelineStatus :=
  if build.building then PipelineStatus.running
  else
    match build.result with
    | some JenkinsBuildResult.success => PipelineStatus.success
    | some JenkinsBuildResult.failure => PipelineStatus.failure
    | some JenkinsBuildResult.unstable => PipelineStatus.failure
    | some JenkinsBuildResult.aborted => PipelineStatus.failure
    | some JenkinsBuildResult.notBuilt => PipelineStatus.pending
    | none => PipelineStatus.unknown

/-! ## Jenkins trigger classifier (`determineBuildTrigger`) -/

/-- First loop of `determineBuildTrigger`: does one action look like a
pull-request action? -/
def actionHasPullRequestSignal (a : JenkinsAction) : Bool :=
  (match a.class? with
   | some c => jsIncludes c ("pull-request") || jsIncludes c ("PullRequestAction")
   | none => false)
  || a.pullRequest.isSome
  || (match a.parameters with
      | some ps =>
        ps.any fun p =>
          match p.name with
          | some n => jsIncludes n ("ghpr") || jsIncludes n ("pull") || jsIncludes n ("PR")
          | none => false
      | none => false)

/-- Pull-request test for one cause.  Note the source requires a truthy
`shortDescription` even for the `_class` check. -/
def causeIsPullRequest (c : JenkinsCause) : Bool :=
  truthy c.shortDescription
  && (match c.shortDescription with
      | some sd =>
        jsIncludes (jsToLower sd) ("pull request") || jsIncludes (jsToLower sd) ("pr ")
        || (match c.class? with
            | some cl => jsIncludes (jsToLower cl) ("pullrequest")
            | none => false)
      | none => false)

/-- Push test for one cause (`includes('push')` is case sensitive). -/
def causeIsPush (c : JenkinsCause) : Bool :=
  truthy c.shortDescription
  && (match c.shortDescription with
      | some sd =>
        jsIncludes sd ("push")
        || (match c.class? with
            | some cl => jsIncludes cl ("GitHubPushCause") || jsIncludes cl ("GitLabWebHookCause")
            | none => false)
      | none => false)

/-- Manual test for one cause. -/
def causeIsManual (c : JenkinsCause) : Bool :=
  truthy c.shortDescription
  && (match c.shortDescription with
      | some sd =>
        jsIncludes sd ("Started by user")
        || (match c.class? with
            | some cl => jsIncludes cl ("UserIdCause")
            | none => false)
      | none => false)

/-- Timer test for one cause. -/
def causeIsScheduled (c : JenkinsCause) : Bool :=
  truthy c.shortDescription
  && (match c.shortDescription with
      | some sd =>
        jsIncludes sd ("timer")
        || (match c.class? with
            | some cl => jsIncludes cl ("TimerTrigger")
            | none => false)
      | none => false)

/-- Remote/API test for one cause. -/
def causeIsApi (c : JenkinsCause) : Bool :=
  truthy c.shortDescription
  && (match c.shortDescription with
      | some sd =>
        jsIncludes sd ("remote")
        || (match c.class? with
            | some cl => jsIncludes cl ("RemoteCause")
            | none => false)
      | none => false)

/-- The body of the causes loop for one cause: the four rule groups are
tried in source order and the first hit returns. -/
def causeTrigger (c : JenkinsCause) : Option JenkinsBuildTrigger :=
  if causeIsPullRequest c then some JenkinsBuildTrigger.pullRequest
  else if causeIsPush c then some JenkinsBuildTrigger.push
  else if causeIsManual c then some JenkinsBuildTrigger.manual
  else if causeIsScheduled c then some JenkinsBuildTrigger.scheduled
  else if causeIsApi c then some JenkinsBuildTrigger.api
  else none

/-- The causes loop: first cause with a matching rule wins. -/
def firstCauseTrigger : List JenkinsCause → Option JenkinsBuildTrigger
  | [] => none
  | c :: rest =>
    match causeTrigger c with
    | some t => some t
    | none => firstCauseTrigger rest

/-- Final fallback of `determineBuildTrigger`: default to PUSH when any
action carries git information. -/
def gitInfoFallback (build : JenkinsBuild) : JenkinsBuildTrigger :=
  if build.actions.any fun a =>
       (match a.class? with
        | some c => jsIncludes c ("git")
        | none => false)
       || a.lastBuiltRevision.isSome || a.buildsByBranchName.isSome
  then JenkinsBuildTrigger.push
  else JenkinsBuildTrigger.unknown

/-- `JenkinsClient.determineBuildTrigger`: pull-request signals in actions
first, then the causes loop, then the git-information fallback. -/
def determineBuildTrigger (build : JenkinsBuild) : JenkinsBuildTrigger :=
  if build.actions.any actionHasPullRequestSignal then JenkinsBuildTrigger.pullRequest
  else
    match build.causes with
    | some causes =>
      match firstCauseTrigger causes with
      | some t => t
      | none => gitInfoFallback build
    | none => gitInfoFallback build

/-! ## Jenkins commit locator (`getBuildByCommitSha`) -/

/-- The two-sided SHA comparison used by methods 1 to 4 of the locator:
equality, or either side a prefix of the other.  `buildSha` was lower-cased
by the caller, `normalized` is the trimmed lower-cased target. -/
def shaSidesMatch (buildSha normalized : String) : Bool :=
  buildSha == normalized || jsStartsWith buildSha normalized
    || jsStartsWith normalized buildSha

/-- Method 1: `lastBuiltRevision.SHA1` of a `hudson.plugins.git` action. -/
def actionMatchMethod1 (normalized : String) (a : JenkinsAction) : Bool :=
  (match a.class? with
   | some c => jsIncludes c ("hudson.plugins.git")
   | none => false)
  && (match a.lastBuiltRevision with
      | some rev =>
        truthy rev.sha1
        && (match rev.sha1 with
            | some s => shaSidesMatch (jsToLower s) normalized
            | none => false)
      | none => false)

/-- Method 2: revisions of the `buildsByBranchName` map. -/
def actionMatchMethod2 (normalized : String) (a : JenkinsAction) : Bool :=
  match a.buildsByBranchName with
  | some entries =>
    entries.any fun e =>
      match e.revision with
      | some rev =>
        (match rev.sha1 with
         | some s => shaSidesMatch (jsToLower s) normalized
         | none => false)
      | none => false
  | none => false

/-- Method 3: `GIT_COMMIT` / `ghprbActualCommit` build parameters. -/
def actionMatchMethod3 (normalized : String) (a : JenkinsAction) : Bool :=
  match a.parameters with
  | some ps =>
    ps.any fun p =>
      (p.name == some ("GIT_COMMIT") || p.name == some ("ghprbActualCommit"))
      && truthy p.value
      && (match p.value with
          | some v => shaSidesMatch (jsToLower v) normalized
          | none => false)
  | none => false

/-- Method 4: source commit of a pull-request action. -/
def actionMatchMethod4 (normalized : String) (a : JenkinsAction) : Bool :=
  (match a.class? with
   | some c => jsIncludes c ("pull-request")
   | none => false)
  && (match a.pullRequest with
      | some pri =>
        match pri.source with
        | some src =>
          truthy src.commit
          && (match src.commit with
              | some s => shaSidesMatch (jsToLower s) normalized
              | none => false)
        | none => false
      | none => false)

/-- The per-build match of `getBuildByCommitSha`: the action loop (methods
1 to 4, breaking on the first hit), then causes (method 5), then display
name and description (method 6).  Breaking on the first hit is equivalent to
the disjunction. -/
def buildMatchesCommitSha (normalized : String) (b : JenkinsBuild) : Bool :=
  b.actions.any (fun a =>
      actionMatchMethod1 normalized a || actionMatchMethod2 normalized a
      || actionMatchMethod3 normalized a || actionMatchMethod4 normalized a)
  || (match b.causes with
      | some cs =>
        cs.any fun c =>
          truthy c.shortDescription
          && (match c.shortDescription with
              | some sd => jsIncludes sd normalized
              | none => false)
      | none => false)
  || (truthy b.displayName
      && (match b.displayName with
          | some dn => jsIncludes dn normalized
          | none => false))
  || (truthy b.description
      && (match b.description with
          | some d => jsIncludes d normalized
          | none => false))

/-- Insertion step of the descending sort by build number
(`matchingBuilds.sort((a, b) => b.number - a.number)`). -/
def insertDesc (b : JenkinsBuild) : List JenkinsBuild → List JenkinsBuild
  | [] => [b]
  | c :: rest => if c.number ≤ b.number then b :: c :: rest else c :: insertDesc b rest

/-- Descending sort by build number. -/
def sortByNumberDesc : List JenkinsBuild → List JenkinsBuild
  | [] => []
  | b :: rest => insertDesc b (sortByNumberDesc rest)

/-- The `matchingBuilds` array collected by `getBuildByCommitSha`: the
builds of the scanned window (at most `maxBuildsToCheck`, in history order)
that match the normalized target SHA. -/
def matchingBuilds (builds : List JenkinsBuildRef) (getBuild : Nat → JenkinsBuild)
    (commitSha : String) (maxBuildsToCheck : Nat) : List JenkinsBuild :=
  ((builds.take maxBuildsToCheck).map fun ref => getBuild ref.number).filter
    (buildMatchesCommitSha (jsToLower (jsTrim commitSha)))

/-- `JenkinsClient.getBuildByCommitSha` over the job build list `builds`
(most recent first, as Jenkins reports it) with `getBuild` standing for the
per-build fetch.  The target SHA is trimmed and lower-cased once, at most
`maxBuildsToCheck` builds are inspected, all matches are collected, sorted
by build number descending, and the first of the sorted list is returned;
no match yields `none`, never an error. -/
def getBuildByCommitSha (builds : List JenkinsBuildRef) (getBuild : Nat → JenkinsBuild)
    (commitSha : String) (maxBuildsToCheck : Nat) : Option JenkinsBuild :=
  if builds.isEmpty then none
  else
    match sortByNumberDesc (matchingBuilds builds getBuild commitSha maxBuildsToCheck) with
    | [] => none
    | best :: _ => some best

/-! ## Jenkins bounded wait (`waitForBuildCompletion`) -/

/-- Error text thrown on timeout (the build number interpolation is
elided). -/
def timeoutErrorMsg : String := "Build did not complete within the timeout period"

/-- One poll loop of `waitForBuildCompletion`.  `fetch n` is the build
returned by the n-th `getBuild` call; each sleep advances elapsed time by
`pollIntervalMs`, so at iteration `n` the elapsed time is
`n * pollIntervalMs`.  The loop returns the build as soon as it is not
building, and throws the timeout error once elapsed time exceeds
`timeoutMs`.  The structural `fuel` only bounds the recursion; with
`fuel ≥ timeoutMs / pollIntervalMs + 2` and a positive interval the fuel
branch is unreachable, and it returns the same timeout error in any case. -/
def waitForBuildCompletionGo (fetch : Nat → JenkinsBuild) (timeoutMs pollIntervalMs : Nat) :
    Nat → Nat → Except String JenkinsBuild
  | _, 0 => Except.error timeoutErrorMsg
  | n, fuel + 1 =>
    let buildInfo := fetch n
    if !buildInfo.building then Except.ok buildInfo
    else if n * pollIntervalMs > timeoutMs then Except.error timeoutErrorMsg
    else waitForBuildCompletionGo fetch timeoutMs pollIntervalMs (n + 1) fuel

/-- `JenkinsClient.waitForBuildCompletion` (defaults: ten-minute timeout,
five-second interval). -/
def waitForBuildCompletion (fetch : Nat → JenkinsBuild)
    (timeoutMs pollIntervalMs : Nat) : Except String JenkinsBuild :=
  waitForBuildCompletionGo fetch timeoutMs pollIntervalMs 0
    (timeoutMs / pollIntervalMs + 2)

/-! ## Azure data model (`api/ci/azureClient.ts`) -/

/-- `AzurePipelineRunStatus` enum. -/
inductive AzurePipelineRunStatus where
  | cancelling
  | completed
  | inProgress
  | notStarted
  | postponed
  | unknown
  deriving DecidableEq, Repr

/-- `AzurePipelineRunResult` enum. -/
inductive AzurePipelineRunResult where
  | canceled
  | failed
  | succeeded
  | skipped
  | partiallySucceeded
  | unknown
  deriving DecidableEq, Repr

/-- `AzurePipelineTriggerReason` enum. -/
inductive AzurePipelineTriggerReason where
  | manual
  | individualCI
  | batchCI
  | schedule
  | pullRequest
  | userCreated
  | validateShelveset
  | checkInShelveset
  | resourceTrigger
  | buildCompletion
  | unknown
  deriving DecidableEq, Repr

/-- The keys of `triggerInfo` the code reads (including the raw
`Build.Reason` entry). -/
structure AzureTriggerInfo where
  ciSourceSha : Option String := none
  ciTriggerRepository : Option String := none
  ciMessage : Option String := none
  prSourceSha : Option String := none
  prSourceBranch : Option String := none
  prPullRequestId : Option String := none
  prTitle : Option String := none
  buildReason : Option String := none
  deriving DecidableEq, Repr

/-- `AzurePipelineRun` (fields the embedded methods read; the raw `reason`
is kept as the wire string, since the classifier checks whether it is a
recognized enum member). -/
structure AzurePipelineRun where
  id : Nat
  name : String := ("")
  state : AzurePipelineRunStatus
  result : Option AzurePipelineRunResult := none
  createdDate : String := ("")
  finishedDate : Option String := none
  webUrl : Option String := none
  triggerInfo : Option AzureTriggerInfo := none
  sourceVersion : Option String := none
  reason : Option String := none
  deriving DecidableEq, Repr

structure AzureRepositoryRef where
  id : String := ("")
  type : String := ("")
  name : String := ("")
  deriving DecidableEq, Repr

/-- `AzurePipelineDefinition` (fields read by the facade). -/
structure AzurePipelineDefinition where
  id : Nat
  name : String := ("")
  repository : Option AzureRepositoryRef := none
  deriving DecidableEq, Repr

/-! ## Azure trigger classifier (`AzureClient.determineTriggerEvent`) -/

/-- The `Object.values(AzurePipelineTriggerReason).includes` test together
with the cast back to the enum. -/
def recognizedTriggerReason (s : String) : Option AzurePipelineTriggerReason :=
  if s == ("manual") then some AzurePipelineTriggerReason.manual
  else if s == ("individualCI") then some AzurePipelineTriggerReason.individualCI
  else if s == ("batchedCI") then some AzurePipelineTriggerReason.batchCI
  else if s == ("schedule") then some AzurePipelineTriggerReason.schedule
  else if s == ("pullRequest") then some AzurePipelineTriggerReason.pullRequest
  else if s == ("userCreated") then some AzurePipelineTriggerReason.userCreated
  else if s == ("validateShelveset") then some AzurePipelineTriggerReason.validateShelveset
  else if s == ("checkInShelveset") then some AzurePipelineTriggerReason.checkInShelveset
  else if s == ("resourceTrigger") then some AzurePipelineTriggerReason.resourceTrigger
  else if s == ("buildCompletion") then some AzurePipelineTriggerReason.buildCompletion
  else if s == ("unknown") then some AzurePipelineTriggerReason.unknown
  else none

/-- The tail of `determineTriggerEvent` after the `triggerInfo` block: the
string comparisons on `run.reason` (dead in practice, since those strings
are enum members and are returned by the first check). -/
def afterTriggerInfoChecks (run : AzurePipelineRun) : AzurePipelineTriggerReason :=
  if run.reason == some ("manual") || run.reason == some ("userCreated") then
    AzurePipelineTriggerReason.manual
  else if run.reason == some ("schedule") then AzurePipelineTriggerReason.schedule
  else AzurePipelineTriggerReason.unknown

/-- `AzureClient.determineTriggerEvent`: a truthy, recognized `reason` is
trusted; otherwise the pull-request hints of `triggerInfo` are tried before
the push (individual CI) hints; then the manual/schedule string checks; the
default is `UNKNOWN`. -/
def determineTriggerEvent (run : AzurePipelineRun) : AzurePipelineTriggerReason :=
  match (if truthy run.reason then run.reason.bind recognizedTriggerReason else none) with
  | some r => r
  | none =>
    match run.triggerInfo with
    | some ti =>
      if truthy ti.prPullRequestId || ti.buildReason == some ("PullRequest") then
        AzurePipelineTriggerReason.pullRequest
      else if truthy ti.ciSourceSha || ti.buildReason == some ("IndividualCI")
          || ti.buildReason == some ("BatchedCI") then
        AzurePipelineTriggerReason.individualCI
      else afterTriggerInfoChecks run
    | none => afterTriggerInfoChecks run

/-! ## Azure status normalization (`AzureCI.mapAzureStatusToPipelineStatus`) -/

/-- `AzureCI.mapAzureStatusToPipelineStatus`: a missing run is `UNKNOWN`;
in-progress, not-started, postponed and cancelling states are `RUNNING`; a
completed run is mapped through its result (partially succeeded counts as
`SUCCESS`), with a default of `UNKNOWN`; any other state is `UNKNOWN`. -/
def mapAzureStatusToPipelineStatus : Option AzurePipelineRun → PipelineStatus
  | none => PipelineStatus.unknown
  | some azureRun =>
    match azureRun.state with
    | AzurePipelineRunStatus.inProgress => PipelineStatus.running
    | AzurePipelineRunStatus.notStarted => PipelineStatus.running
    | AzurePipelineRunStatus.postponed => PipelineStatus.running
    | AzurePipelineRunStatus.cancelling => PipelineStatus.running
    | AzurePipelineRunStatus.completed =>
      match azureRun.result with
      | some AzurePipelineRunResult.succeeded => PipelineStatus.success
      | some AzurePipelineRunResult.partiallySucceeded => PipelineStatus.success
      | some AzurePipelineRunResult.failed => PipelineStatus.failure
      | some AzurePipelineRunResult.canceled => PipelineStatus.cancelled
      | _ => PipelineStatus.unknown
    | AzurePipelineRunStatus.unknown => PipelineStatus.unknown

/-- `AzureCI.convertAzureRunToPipeline`. -/
def convertAzureRunToPipeline (componentName : String) (azureRun : AzurePipelineRun)
    (pipelineDef : AzurePipelineDefinition) : Pipeline :=
  { id := toString pipelineDef.id ++ ("-") ++ toString azureRun.id
    ciType := ("azure")
    repositoryName :=
      match pipelineDef.repository with
      | some repo => if repo.name == ("") then componentName else repo.name
      | none => componentName
    status := mapAzureStatusToPipelineStatus (some azureRun)
    name := some azureRun.name
    url := azureRun.webUrl
    startTime := if azureRun.createdDate == ("") then none else some azureRun.createdDate
    endTime :=
      match azureRun.finishedDate with
      | some d => if d == ("") then none else some d
      | none => none
    sha :=
      orTruthy
        (orTruthy azureRun.sourceVersion
          (match azureRun.triggerInfo with
           | some ti => ti.ciSourceSha
           | none => none))
        (match azureRun.triggerInfo with
         | some ti => ti.prSourceSha
         | none => none) }

/-! ## AzureCI facade (`AzureCI.getPipeline`,
`AzureCI.waitForAllPipelineRunsToFinish`) -/

/-- Pull-request head reference (`pullRequest.head`). -/
structure PRHead where
  sha : Option String := none
  ref : Option String := none
  deriving DecidableEq, Repr

/-- The pull-request record handed to the facade and the orchestrator. -/
structure PullRequest where
  pullNumber : Nat
  sha : String := ("")
  head : Option PRHead := none
  deriving DecidableEq, Repr

/-- The result of merging a pull request. -/
structure MergedPullRequest where
  pullNumber : Nat
  sha : String
  deriving DecidableEq, Repr

/-- The subset of `ListPipelineRunsOptions` the facade passes. -/
structure ListPipelineRunsOptions where
  sourceVersion : Option String := none
  branchName : Option String := none
  top : Option Nat := none
  queryOrder : Option String := none
  deriving DecidableEq, Repr

/-- The raw Azure client as an external collaborator: each call either
returns a payload or throws (transport fault). -/
structure AzureClientModel where
  getPipelineDefinition : String → Except String (Option AzurePipelineDefinition)
  listPipelineRunsWith : Nat → ListPipelineRunsOptions → Except String (List AzurePipelineRun)
  getLatestPipelineRun : Nat → Except String (Option AzurePipelineRun)
  getPipelineIdByName : String → Except String (Option Nat)
  listPipelineRuns : Nat → Except String (List AzurePipelineRun)

/-- The body of the `try` block of `AzureCI.getPipeline`: resolve the
definition, pick the run list by SHA, else by branch, else the latest run,
compute (and, as in the source, discard) the event-type filter, take the
first run, convert it, and apply the optional status filter. -/
def getPipelineE (az : AzureClientModel) (componentName : String)
    (pullRequest : PullRequest) (pipelineStatus : Option PipelineStatus)
    (eventType : Option EventType) : Except String (Option Pipeline) := do
  let pipelineDef? ← az.getPipelineDefinition componentName
  match pipelineDef? with
  | none => return none
  | some pipelineDef => do
    let runs : List AzurePipelineRun ←
      match pullRequest.head with
      | some head =>
        if truthy head.sha then
          az.listPipelineRunsWith pipelineDef.id
            { sourceVersion := head.sha, queryOrder := some ("finishTimeDescending") }
        else if truthy head.ref then
          let refName := (head.ref).getD ("")
          let branchName :=
            if jsStartsWith refName ("refs/heads/") then refName
            else ("refs/heads/") ++ refName
          az.listPipelineRunsWith pipelineDef.id
            { branchName := some branchName, top := some 1
              queryOrder := some ("finishTimeDescending") }
        else do
          let latestRun ← az.getLatestPipelineRun pipelineDef.id
          pure (match latestRun with
            | some r => [r]
            | none => [])
      | none => do
        let latestRun ← az.getLatestPipelineRun pipelineDef.id
        pure (match latestRun with
          | some r => [r]
          | none => [])
    match runs with
    | [] => return none
    | targetRun :: _ =>
      -- The event-type filter of the source: `runs.filter(...)` is called
      -- but its value is never reassigned to `runs`, so it has no effect on
      -- the run selected below.
      let _discardedFilter :=
        if eventType == some EventType.pullRequest then
          runs.filter fun run => run.reason == some ("pullRequest")
        else if eventType == some EventType.push then
          runs.filter fun run => run.reason == some ("individualCI")
        else runs
      let pipeline := convertAzureRunToPipeline componentName targetRun pipelineDef
      match pipelineStatus with
      | some ps => if pipeline.status ≠ ps then return none else return some pipeline
      | none => return some pipeline

/-- `AzureCI.getPipeline`: the whole body runs inside `try`/`catch`, and the
catch clause logs and returns `null`. -/
def getPipeline (az : AzureClientModel) (componentName : String)
    (pullRequest : PullRequest) (pipelineStatus : Option PipelineStatus)
    (eventType : Option EventType) : Option Pipeline :=
  match getPipelineE az componentName pullRequest pipelineStatus eventType with
  | Except.ok v => v
  | Except.error _ => none

/-- The `async-retry` discipline with `retries` additional attempts: the
operation is retried only when it throws; a normal return resolves at once.
The second component counts the attempts made.  (The configured 10s-30s
backoff window only spaces the attempts and is not observable here.) -/
def retryRun (op : Nat → Except String Unit) : Nat → Nat → Except String Unit × Nat
  | attempt, 0 =>
    (op attempt, attempt + 1)
  | attempt, retriesLeft + 1 =>
    match op attempt with
    | Except.ok v => (Except.ok v, attempt + 1)
    | Except.error _ => retryRun op (attempt + 1) retriesLeft

/-- The retry callback of `AzureCI.waitForAllPipelineRunsToFinish`: resolve
the pipeline id (returning when absent), list its runs, and return — the
source returns inside the `length === 0` branch and then falls off the end
of the callback, so the callback also returns normally when pending or
running runs remain. -/
def waitForAllBody (az : AzureClientModel) (componentName : String)
    (_attempt : Nat) : Except String Unit := do
  let pipelineId? ← az.getPipelineIdByName componentName
  match pipelineId? with
  | none => return ()
  | some pipelineId => do
    let pipelineRuns ← az.listPipelineRuns pipelineId
    if (pipelineRuns.filter fun pipelineRun =>
          mapAzureStatusToPipelineStatus (some pipelineRun) == PipelineStatus.pending
          || mapAzureStatusToPipelineStatus (some pipelineRun) == PipelineStatus.running).length
        = 0 then
      return ()
    else
      -- control falls off the end of the async callback: a normal return
      return ()

/-- `AzureCI.waitForAllPipelineRunsToFinish`: the callback under
`async-retry` with `retries: 30`. -/
def waitForAllPipelineRunsToFinish (az : AzureClientModel) (componentName : String) :
    Except String Unit × Nat :=
  retryRun (waitForAllBody az componentName) 0 30

/-! ## Promotion orchestrator (`utils/test/common.ts`,
`promoteToEnvironmentWithPR`) -/

/-- The stages of the promotion state machine named by the specification. -/
inductive Stage where
  | checkTargetExists
  | createPR
  | awaitPrPipeline
  | mergePR
  | awaitPushPipeline
  | syncDeployment
  | awaitSync
  deriving DecidableEq, Repr

/-- The stage order actually implemented by `promoteToEnvironmentWithPR`. -/
def stageOrderPR : List Stage :=
  [Stage.checkTargetExists, Stage.createPR, Stage.awaitPrPipeline, Stage.mergePR,
   Stage.syncDeployment, Stage.awaitSync]

/-- `waitUntilApplicationIsSynced` result. -/
structure SyncResult where
  synced : Bool
  message : String := ("")
  deriving DecidableEq, Repr

/-- The Git collaborator of the orchestrator. -/
structure GitModel where
  createPromotionPullRequestOnGitopsRepo : String → String → Except String PullRequest
  mergePullRequest : PullRequest → Except String MergedPullRequest

/-- The ArgoCD collaborator of the orchestrator. -/
structure ArgoCDModel where
  getApplication : String → Except String (Option Unit)
  syncApplication : String → Except String Unit
  waitUntilApplicationIsSynced : String → String → Except String SyncResult

/-- The CI facade as the orchestrator sees it. -/
structure CIModel where
  getPipeline : PullRequest → PipelineStatus → EventType → Except String (Option Pipeline)
  waitForPipelineToFinish : Pipeline → Except String PipelineStatus

/-- Modelled from the spec: `expectPipelineSuccess` of the missing
`utils/test/assertionHelpers.ts` module asserts that the awaited pipeline
finished with `SUCCESS` and throws a stage-qualified `WorkflowAborted`
error for any other terminal outcome. -/
def expectPipelineSuccess (status : PipelineStatus) : Except String Unit :=
  if status = PipelineStatus.success then Except.ok ()
  else Except.error ("WorkflowAborted: stage AWAIT_PR_PIPELINE finished without SUCCESS")

/-- `promoteToEnvironmentWithPR`: check the target application exists,
create the promotion PR, fetch and await the PR pipeline, gate on its
success, merge the PR, sync the application and await the sync.  The
second component is the trace of stages started, each recorded immediately
before its collaborator call; the `catch` clause of the source logs and
rethrows, so errors propagate unchanged. -/
def promoteToEnvironmentWithPR (git : GitModel) (ci : CIModel) (cd : ArgoCDModel)
    (environment image : String) : Except String Unit × List Stage :=
  match cd.getApplication environment with
  | Except.error e => (Except.error e, [Stage.checkTargetExists])
  | Except.ok none =>
    -- `expect(application).not.toBeNull()` throws on a missing application
    (Except.error ("expected the application not to be null"), [Stage.checkTargetExists])
  | Except.ok (some _) =>
    match git.createPromotionPullRequestOnGitopsRepo environment image with
    | Except.error e => (Except.error e, stageOrderPR.take 2)
    | Except.ok pr =>
      match ci.getPipeline pr PipelineStatus.running EventType.pullRequest with
      | Except.error e => (Except.error e, stageOrderPR.take 3)
      | Except.ok none =>
        (Except.error ("No pipeline was triggered by the promotion PR"), stageOrderPR.take 3)
      | Except.ok (some pipeline) =>
        match ci.waitForPipelineToFinish pipeline with
        | Except.error e => (Except.error e, stageOrderPR.take 3)
        | Except.ok pipelineStatus =>
          match expectPipelineSuccess pipelineStatus with
          | Except.error e => (Except.error e, stageOrderPR.take 3)
          | Except.ok () =>
            match git.mergePullRequest pr with
            | Except.error e => (Except.error e, stageOrderPR.take 4)
            | Except.ok mergedPR =>
              match cd.syncApplication environment with
              | Except.error e => (Except.error e, stageOrderPR.take 5)
              | Except.ok () =>
                match cd.waitUntilApplicationIsSynced environment mergedPR.sha with
                | Except.error e => (Except.error e, stageOrderPR)
                | Except.ok syncResult =>
                  if syncResult.synced then (Except.ok (), stageOrderPR)
                  else
                    (Except.error (("Failed to sync application: ") ++ syncResult.message),
                     stageOrderPR)

/-! ## Supporting lemmas -/

theorem insertDesc_ne_nil (b : JenkinsBuild) (l : List JenkinsBuild) : insertDesc b l ≠ [] := by
  cases l with
  | nil => simp [insertDesc]
  | cons c rest =>
    unfold insertDesc
    split <;> simp

/-- The head of the descending sort is a member of the list and has the
largest build number. -/
theorem sortByNumberDesc_head_max (l : List JenkinsBuild) (b : JenkinsBuild)
    (t : List JenkinsBuild) (h : sortByNumberDesc l = b :: t) :
    b ∈ l ∧ ∀ x ∈ l, x.number ≤ b.number := by
  induction l generalizing b t with
  | nil => simp [sortByNumberDesc] at h
  | cons a rest ih =>
    unfold sortByNumberDesc at h
    cases hr : sortByNumberDesc rest with
    | nil =>
      rw [hr] at h
      unfold insertDesc at h
      have hrest : rest = [] := by
        cases rest with
        | nil => rfl
        | cons c s => exact absurd hr (by
            unfold sortByNumberDesc
            exact insertDesc_ne_nil c (sortByNumberDesc s))
      cases h
      subst hrest
      exact ⟨by simp, by simp⟩
    | cons c s =>
      rw [hr] at h
      unfold insertDesc at h
      obtain ⟨hc, hall⟩ := ih c s hr
      split at h
      · rename_i hca
        cases h
        refine ⟨by simp, ?_⟩
        intro x hx
        rcases List.mem_cons.mp hx with hx | hx
        · subst hx; exact le_refl _
        · exact le_trans (hall x hx) hca
      · rename_i hca
        cases h
        refine ⟨List.mem_cons_of_mem _ hc, ?_⟩
        intro x hx
        rcases List.mem_cons.mp hx with hx | hx
        · subst hx; exact le_of_lt (Nat.lt_of_not_le hca)
        · exact hall x hx

/-- Under a fetch sequence that never leaves the building state, every
unrolling of the poll loop ends in the timeout error. -/
theorem waitGo_never_terminal (fetch : Nat → JenkinsBuild) (timeoutMs pollIntervalMs : Nat)
    (hb : ∀ n, (fetch n).building = true) :
    ∀ fuel n, waitForBuildCompletionGo fetch timeoutMs pollIntervalMs n fuel
      = Except.error timeoutErrorMsg := by
  intro fuel
  induction fuel with
  | zero => intro n; rfl
  | succ k ih =>
    intro n
    unfold waitForBuildCompletionGo
    simp only [hb, Bool.not_true, Bool.false_eq_true, if_false]
    split
    · rfl
    · exact ih (n + 1)

/-- A retry loop whose operation returns normally on its first attempt
resolves after that one attempt. -/
theorem retryRun_ok (op : Nat → Except String Unit) (k retries : Nat)
    (h : op k = Except.ok ()) : retryRun op k retries = (Except.ok (), k + 1) := by
  cases retries with
  | zero => unfold retryRun; rw [h]
  | succ r => unfold retryRun; rw [h]

/-! ## Concrete collaborator models used by witnesses and counterexamples -/

/-- Git collaborator whose calls all succeed. -/
def happyGit : GitModel :=
  { createPromotionPullRequestOnGitopsRepo :=
      fun _ _ => Except.ok { pullNumber := 42, sha := ("deadbeef") }
    mergePullRequest :=
      fun pr => Except.ok { pullNumber := pr.pullNumber, sha := ("cafef00d") } }

def happyPipeline : Pipeline :=
  { id := ("p-1"), ciType := ("azure"), repositoryName := ("repo"),
    status := PipelineStatus.running }

/-- CI facade whose PR pipeline finishes with SUCCESS. -/
def happyCI : CIModel :=
  { getPipeline := fun _ _ _ => Except.ok (some happyPipeline)
    waitForPipelineToFinish := fun _ => Except.ok PipelineStatus.success }

/-- CI facade whose awaited pipeline terminates with FAILURE. -/
def failingCI : CIModel :=
  { getPipeline := fun _ _ _ => Except.ok (some happyPipeline)
    waitForPipelineToFinish := fun _ => Except.ok PipelineStatus.failure }

/-- ArgoCD collaborator whose calls all succeed. -/
def happyCD : ArgoCDModel :=
  { getApplication := fun _ => Except.ok (some ())
    syncApplication := fun _ => Except.ok ()
    waitUntilApplicationIsSynced := fun _ _ => Except.ok { synced := true } }

/-- A completed Azure run whose trigger reason is individual CI (a push
run). -/
def pushRun : AzurePipelineRun :=
  { id := 1, state := AzurePipelineRunStatus.completed,
    result := some AzurePipelineRunResult.succeeded,
    reason := some ("individualCI") }

/-- A completed Azure run triggered by a pull request. -/
def prRun : AzurePipelineRun :=
  { id := 2, state := AzurePipelineRunStatus.completed,
    result := some AzurePipelineRunResult.succeeded,
    reason := some ("pullRequest") }

/-- An Azure client whose run listing returns a push run first and a
pull-request run second. -/
def mixedRunsClient : AzureClientModel :=
  { getPipelineDefinition := fun _ => Except.ok (some { id := 10 })
    listPipelineRunsWith := fun _ _ => Except.ok [pushRun, prRun]
    getLatestPipelineRun := fun _ => Except.ok none
    getPipelineIdByName := fun _ => Except.ok (some 10)
    listPipelineRuns := fun _ => Except.ok [pushRun, prRun] }

/-- A pull request carrying a head SHA, so the facade lists runs by source
version. -/
def shaPullRequest : PullRequest :=
  { pullNumber := 1, head := some { sha := some ("deadbeef") } }

/-- An Azure client whose every call throws a transport fault. -/
def throwingClient : AzureClientModel :=
  { getPipelineDefinition := fun _ => Except.error ("transport fault")
    listPipelineRunsWith := fun _ _ => Except.error ("transport fault")
    getLatestPipelineRun := fun _ => Except.error ("transport fault")
    getPipelineIdByName := fun _ => Except.error ("transport fault")
    listPipelineRuns := fun _ => Except.error ("transport fault") }

/-- An Azure run that is still in progress (canonical RUNNING). -/
def runningRun : AzurePipelineRun :=
  { id := 3, state := AzurePipelineRunStatus.inProgress }

/-- An Azure client that reports one still-running pipeline run. -/
def busyClient : AzureClientModel :=
  { getPipelineDefinition := fun _ => Except.ok none
    listPipelineRunsWith := fun _ _ => Except.ok []
    getLatestPipelineRun := fun _ => Except.ok none
    getPipelineIdByName := fun _ => Except.ok (some 10)
    listPipelineRuns := fun _ => Except.ok [runningRun] }

/-- A Jenkins build that is forever building. -/
def alwaysRunningBuild : JenkinsBuild := { number := 9, building := true }

/-- A Jenkins build whose causes list a push cause before a pull-request
cause: both trigger signals are present. -/
def pushThenPrBuild : JenkinsBuild :=
  { number := 4, building := false,
    causes := some
      [ { shortDescription := some ("push event to branch main") },
        { shortDescription := some ("pull request 7 opened") } ] }

/-- A Jenkins build carrying an explicit pull-request action and a push
cause. -/
def prActionBuild : JenkinsBuild :=
  { number := 6, building := false,
    actions := [ { pullRequest := some { source := some { commit := some ("abc") } } } ],
    causes := some [ { shortDescription := some ("push event to branch main") } ] }

/-- A cause whose description carries both the pull-request and the push
signal. -/
def bothSignalsCause : JenkinsCause :=
  { shortDescription := some ("push of pull request 9") }

/-- An Azure run with no explicit reason but with both a pull-request id
and a CI source SHA in `triggerInfo`. -/
def azureBothSignalsRun : AzurePipelineRun :=
  { id := 5, state := AzurePipelineRunStatus.inProgress, reason := none,
    triggerInfo := some { prPullRequestId := some ("12"), ciSourceSha := some ("deadbeef") } }

/-- A candidate build whose git action carries the given revision SHA. -/
def mkRevisionBuild (n : Nat) (sha : String) : JenkinsBuild :=
  { number := n, building := false,
    actions := [ { class? := some ("hudson.plugins.git.util.BuildData"),
                   lastBuiltRevision := some { sha1 := some sha } } ] }

/-- A build whose display name contains the SHA `abc123` (matched by the
locator through method 6). -/
def taggedBuild (n : Nat) : JenkinsBuild :=
  { number := n, building := false, displayName := some ("build abc123") }

/-! ## Claim C1 -/

/-- C1, counterexample.  The claim states that the PR-based promotion
workflow executes the stages CHECK_TARGET_EXISTS, CREATE_PR,
AWAIT_PR_PIPELINE, MERGE_PR, AWAIT_PUSH_PIPELINE, SYNC_DEPLOYMENT,
AWAIT_SYNC with no stage skipped.  A fully successful run of
`promoteToEnvironmentWithPR` never starts an AWAIT_PUSH_PIPELINE stage:
the source moves from merging the PR directly to syncing the deployment. -/
theorem c1_counterexample :
    Stage.awaitPushPipeline
        ∉ (promoteToEnvironmentWithPR happyGit happyCI happyCD ("stage") ("img")).2
    ∧ (promoteToEnvironmentWithPR happyGit happyCI happyCD ("stage") ("img")).1
        = Except.ok () := by
  exact ⟨by decide, rfl⟩

/-- C1, amended.  In the PR-based promotion workflow the stages execute in
exactly the order CHECK_TARGET_EXISTS, CREATE_PR, AWAIT_PR_PIPELINE,
MERGE_PR, SYNC_DEPLOYMENT, AWAIT_SYNC — there is no AWAIT_PUSH_PIPELINE
stage — with no stage skipped and no later stage started speculatively:
every trace is a prefix of this order, and a workflow that completes
without error has started exactly these stages in this order. -/
theorem c1_stage_order (git : GitModel) (ci : CIModel) (cd : ArgoCDModel)
    (environment image : String) :
    (∃ n, (promoteToEnvironmentWithPR git ci cd environment image).2 = stageOrderPR.take n)
    ∧ ((promoteToEnvironmentWithPR git ci cd environment image).1 = Except.ok ()
        → (promoteToEnvironmentWithPR git ci cd environment image).2 = stageOrderPR) := by
  unfold promoteToEnvironmentWithPR
  repeat' split
  all_goals first
    | exact ⟨⟨1, rfl⟩, fun h => nomatch h⟩
    | exact ⟨⟨2, rfl⟩, fun h => nomatch h⟩
    | exact ⟨⟨3, rfl⟩, fun h => nomatch h⟩
    | exact ⟨⟨4, rfl⟩, fun h => nomatch h⟩
    | exact ⟨⟨5, rfl⟩, fun h => nomatch h⟩
    | exact ⟨⟨6, rfl⟩, fun h => rfl⟩

/-- C1, witness: the amended stage-order theorem applied to the concrete
all-success collaborators; the successful run starts exactly the six
implemented stages in order. -/
theorem c1_stage_order_witness :
    (promoteToEnvironmentWithPR happyGit happyCI happyCD ("stage") ("img")).2
      = stageOrderPR :=
  (c1_stage_order happyGit happyCI happyCD ("stage") ("img")).2 rfl

/-! ## Claim C2 -/

/-- C2.  Whenever the awaited PR pipeline never terminates with SUCCESS
(for example, it terminates with FAILURE), `promoteToEnvironmentWithPR`
never invokes `mergePullRequest` and never invokes `syncApplication`, and
the workflow terminates with an error. -/
theorem c2_no_merge_on_failed_pr_pipeline (git : GitModel) (ci : CIModel)
    (cd : ArgoCDModel) (environment image : String)
    (hw : ∀ p, ci.waitForPipelineToFinish p ≠ Except.ok PipelineStatus.success) :
    Stage.mergePR ∉ (promoteToEnvironmentWithPR git ci cd environment image).2
    ∧ Stage.syncDeployment ∉ (promoteToEnvironmentWithPR git ci cd environment image).2
    ∧ ∃ e, (promoteToEnvironmentWithPR git ci cd environment image).1 = Except.error e := by
  cases hApp : cd.getApplication environment with
  | error e =>
    have hres : promoteToEnvironmentWithPR git ci cd environment image
        = (Except.error e, [Stage.checkTargetExists]) := by
      simp only [promoteToEnvironmentWithPR, hApp]
    exact ⟨by rw [hres]; simp, by rw [hres]; simp, e, by rw [hres]⟩
  | ok app? =>
    cases app? with
    | none =>
      have hres : promoteToEnvironmentWithPR git ci cd environment image
          = (Except.error ("expected the application not to be null"),
             [Stage.checkTargetExists]) := by
        simp only [promoteToEnvironmentWithPR, hApp]
      exact ⟨by rw [hres]; simp, by rw [hres]; simp, _, by rw [hres]⟩
    | some app =>
      cases hPR : git.createPromotionPullRequestOnGitopsRepo environment image with
      | error e =>
        have hres : promoteToEnvironmentWithPR git ci cd environment image
            = (Except.error e, stageOrderPR.take 2) := by
          simp only [promoteToEnvironmentWithPR, hApp, hPR]
        exact ⟨by rw [hres]; simp [stageOrderPR], by rw [hres]; simp [stageOrderPR], e,
          by rw [hres]⟩
      | ok pr =>
        cases hGet : ci.getPipeline pr PipelineStatus.running EventType.pullRequest with
        | error e =>
          have hres : promoteToEnvironmentWithPR git ci cd environment image
              = (Except.error e, stageOrderPR.take 3) := by
            simp only [promoteToEnvironmentWithPR, hApp, hPR, hGet]
          exact ⟨by rw [hres]; simp [stageOrderPR], by rw [hres]; simp [stageOrderPR], e,
            by rw [hres]⟩
        | ok p? =>
          cases p? with
          | none =>
            have hres : promoteToEnvironmentWithPR git ci cd environment image
                = (Except.error ("No pipeline was triggered by the promotion PR"),
                   stageOrderPR.take 3) := by
              simp only [promoteToEnvironmentWithPR, hApp, hPR, hGet]
            exact ⟨by rw [hres]; simp [stageOrderPR], by rw [hres]; simp [stageOrderPR], _,
              by rw [hres]⟩
          | some pipeline =>
            cases hWait : ci.waitForPipelineToFinish pipeline with
            | error e =>
              have hres : promoteToEnvironmentWithPR git ci cd environment image
                  = (Except.error e, stageOrderPR.take 3) := by
                simp only [promoteToEnvironmentWithPR, hApp, hPR, hGet, hWait]
              exact ⟨by rw [hres]; simp [stageOrderPR], by rw [hres]; simp [stageOrderPR], e,
                by rw [hres]⟩
            | ok st =>
              have hne := hw pipeline
              rw [hWait] at hne
              have hst : st ≠ PipelineStatus.success := fun h => hne (by rw [h])
              have hexp : expectPipelineSuccess st
                  = Except.error
                      ("WorkflowAborted: stage AWAIT_PR_PIPELINE finished without SUCCESS") := by
                unfold expectPipelineSuccess
                rw [if_neg hst]
              have hres : promoteToEnvironmentWithPR git ci cd environment image
                  = (Except.error
                       ("WorkflowAborted: stage AWAIT_PR_PIPELINE finished without SUCCESS"),
                     stageOrderPR.take 3) := by
                simp only [promoteToEnvironmentWithPR, hApp, hPR, hGet, hWait, hexp]
              exact ⟨by rw [hres]; simp [stageOrderPR], by rw [hres]; simp [stageOrderPR], _,
                by rw [hres]⟩

/-- C2, witness: with a CI facade whose awaited pipeline finishes with
FAILURE, the concrete promotion run reaches neither the merge stage nor the
deployment sync and ends in an error. -/
theorem c2_no_merge_witness :
    Stage.mergePR ∉ (promoteToEnvironmentWithPR happyGit failingCI happyCD ("stage") ("img")).2
    ∧ Stage.syncDeployment
        ∉ (promoteToEnvironmentWithPR happyGit failingCI happyCD ("stage") ("img")).2
    ∧ ∃ e, (promoteToEnvironmentWithPR happyGit failingCI happyCD ("stage") ("img")).1
        = Except.error e :=
  c2_no_merge_on_failed_pr_pipeline happyGit failingCI happyCD ("stage") ("img")
    (fun _ h => nomatch h)

/-! ## Claim C3 -/

/-- C3.  The claim states that under eventType PULL_REQUEST the selected
run is drawn only from runs whose trigger reason is a pull-request trigger.
On a candidate list whose first run is an individualCI (push) run and whose
second run is a pullRequest run, `AzureCI.getPipeline` with eventType
PULL_REQUEST returns the pipeline converted from the push run: the
`runs.filter(...)` result is discarded (never reassigned to `runs`), so the
eventType filter has no effect on the run selected. -/
theorem c3_event_filter_discarded :
    getPipeline mixedRunsClient ("comp") shaPullRequest none (some EventType.pullRequest)
      = some (convertAzureRunToPipeline ("comp") pushRun { id := 10 })
    ∧ pushRun.reason = some ("individualCI")
    ∧ prRun.reason = some ("pullRequest")
    ∧ determineTriggerEvent pushRun = AzurePipelineTriggerReason.individualCI := by
  exact ⟨rfl, rfl, rfl, by decide⟩

/-! ## Claim C4 -/

/-- C4, counterexample.  The claim states that when the polled build never
reaches a terminal state the bounded wait returns a timeout outcome and
never raises an exception.  With a fetch sequence that always reports a
building run, `waitForBuildCompletion` rejects with the timeout error —
the source throws `new Error(...)` when the deadline passes. -/
theorem c4_counterexample :
    waitForBuildCompletion (fun _ => alwaysRunningBuild) 10 5 = Except.error timeoutErrorMsg
    ∧ alwaysRunningBuild.building = true := by
  exact ⟨rfl, rfl⟩

/-- C4, amended.  For every fetch sequence in which the polled build never
reaches a terminal state, `waitForBuildCompletion` rejects with the timeout
error once the deadline passes — it raises an exception rather than
returning a timeout outcome, and it does not poll forever or return a
non-terminal build. -/
theorem c4_timeout_error (fetch : Nat → JenkinsBuild) (timeoutMs pollIntervalMs : Nat)
    (hb : ∀ n, (fetch n).building = true) :
    waitForBuildCompletion fetch timeoutMs pollIntervalMs = Except.error timeoutErrorMsg := by
  unfold waitForBuildCompletion
  exact waitGo_never_terminal fetch timeoutMs pollIntervalMs hb _ 0

/-- C4, witness: the amended theorem applied to the constant building fetch
with a twenty-millisecond timeout and five-millisecond poll interval. -/
theorem c4_timeout_error_witness :
    waitForBuildCompletion (fun _ => alwaysRunningBuild) 20 5
      = Except.error timeoutErrorMsg :=
  c4_timeout_error (fun _ => alwaysRunningBuild) 20 5 (fun _ => rfl)

/-! ## Claim C5 -/

/-- C5, counterexample.  The claim states that whenever both pull-request
and push signals are present the classifier returns PULL_REQUEST in every
provider.  In the Jenkins classifier a push-only cause that precedes the
first pull-request cause wins: on a build whose causes list a push cause
before a pull-request cause (both signals present, no actions),
`determineBuildTrigger` returns PUSH. -/
theorem c5_counterexample :
    determineBuildTrigger pushThenPrBuild = JenkinsBuildTrigger.push
    ∧ pushThenPrBuild.causes
        = some [ { shortDescription := some ("push event to branch main") },
                 { shortDescription := some ("pull request 7 opened") } ]
    ∧ causeIsPush { shortDescription := some ("push event to branch main") } = true
    ∧ causeIsPullRequest { shortDescription := some ("pull request 7 opened") } = true := by
  exact ⟨by decide, rfl, by decide, by decide⟩

/-- C5, amended.  The pull-request rule is evaluated before the push rule
at each decision point of every classifier: in the Azure classifier, when
the explicit trigger field does not carry a recognized canonical value and
the trigger info carries both a pull-request id and a CI source SHA, the
result is PULL_REQUEST; in the Jenkins classifier, a pull-request signal in
the actions is decided before any cause is consulted, and a single cause
matching both the pull-request and the push predicate classifies as
PULL_REQUEST — but a push-only cause earlier in the causes list than the
first pull-request cause yields PUSH, as the counterexample shows. -/
theorem c5_pr_priority :
    (∀ (run : AzurePipelineRun) (ti : AzureTriggerInfo),
        run.triggerInfo = some ti →
        (truthy run.reason = false ∨ run.reason.bind recognizedTriggerReason = none) →
        truthy ti.prPullRequestId = true →
        truthy ti.ciSourceSha = true →
        determineTriggerEvent run = AzurePipelineTriggerReason.pullRequest)
    ∧ (∀ b : JenkinsBuild, b.actions.any actionHasPullRequestSignal = true →
        determineBuildTrigger b = JenkinsBuildTrigger.pullRequest)
    ∧ (∀ c : JenkinsCause, causeIsPullRequest c = true → causeIsPush c = true →
        causeTrigger c = some JenkinsBuildTrigger.pullRequest) := by
  refine ⟨?_, ?_, ?_⟩
  · intro run ti hti hr hpr hci
    have hnone : (if truthy run.reason then run.reason.bind recognizedTriggerReason else none)
        = (none : Option AzurePipelineTriggerReason) := by
      rcases hr with hr | hr
      · rw [hr]; simp
      · split
        · exact hr
        · rfl
    unfold determineTriggerEvent
    simp [hnone, hti, hpr]
  · intro b hb
    unfold determineBuildTrigger
    rw [hb]
    simp
  · intro c h1 h2
    simp [causeTrigger, h1]

/-- C5, witness: the three priority statements applied to concrete inputs —
the Azure run with both trigger-info signals, the Jenkins build with a
pull-request action and a push cause, and the cause whose description
carries both signals. -/
theorem c5_pr_priority_witness :
    determineTriggerEvent azureBothSignalsRun = AzurePipelineTriggerReason.pullRequest
    ∧ determineBuildTrigger prActionBuild = JenkinsBuildTrigger.pullRequest
    ∧ causeTrigger bothSignalsCause = some JenkinsBuildTrigger.pullRequest :=
  ⟨c5_pr_priority.1 azureBothSignalsRun _ rfl (Or.inl rfl) rfl rfl,
   c5_pr_priority.2.1 prActionBuild (by decide),
   c5_pr_priority.2.2 bothSignalsCause (by decide) (by decide)⟩

/-! ## Claim C6 -/

/-- C6.  The commit locator's SHA comparison is case-insensitive and
matches whenever either side is a prefix of the other: a candidate build
whose git-action revision is a nonempty SHA matches the target whenever
one of the lower-cased sides is a prefix of the other, and, concretely,
target `ABC123` finds the build with revision `abc123def456` and target
`ABC123DEF456` finds the build with revision `abc123` through the full
`getBuildByCommitSha` scan. -/
theorem c6_sha_prefix_match :
    (∀ (target s : String) (n : Nat), s ≠ ("") →
        (jsStartsWith (jsToLower s) (jsToLower (jsTrim target)) = true
          ∨ jsStartsWith (jsToLower (jsTrim target)) (jsToLower s) = true) →
        buildMatchesCommitSha (jsToLower (jsTrim target)) (mkRevisionBuild n s) = true)
    ∧ ((getBuildByCommitSha [⟨1⟩] (fun _ => mkRevisionBuild 1 ("abc123def456"))
          ("ABC123") 50).map fun b => b.number) = some 1
    ∧ ((getBuildByCommitSha [⟨1⟩] (fun _ => mkRevisionBuild 1 ("abc123"))
          ("ABC123DEF456") 50).map fun b => b.number) = some 1 := by
  refine ⟨?_, by decide, by decide⟩
  intro target s n hs hpre
  have htr : truthy (some s) = true := by
    simp only [truthy, Bool.not_eq_true', beq_eq_false_iff_ne, ne_eq]
    exact hs
  have hm : shaSidesMatch (jsToLower s) (jsToLower (jsTrim target)) = true := by
    unfold shaSidesMatch
    rcases hpre with h | h <;> simp [h]
  have hinc : jsIncludes ("hudson.plugins.git.util.BuildData") ("hudson.plugins.git")
      = true := by decide
  have h1 : actionMatchMethod1 (jsToLower (jsTrim target))
      { class? := some ("hudson.plugins.git.util.BuildData"),
        lastBuiltRevision := some { sha1 := some s } } = true := by
    unfold actionMatchMethod1
    simp [hinc, htr, hm]
  unfold buildMatchesCommitSha mkRevisionBuild
  simp [h1]

/-- C6, witness: the prefix law applied at target `ABC123` and candidate
revision `abc123def456`. -/
theorem c6_sha_prefix_match_witness :
    buildMatchesCommitSha (jsToLower (jsTrim ("ABC123"))) (mkRevisionBuild 2 ("abc123def456"))
      = true :=
  c6_sha_prefix_match.1 ("ABC123") ("abc123def456") 2 (by decide) (Or.inl (by decide))

/-! ## Claim C7 -/

/-- C7.  The commit locator collects every matching build of the scanned
window, sorts the collection by build number descending and returns the
highest-numbered match: whenever `getBuildByCommitSha` returns a build, it
is one of the collected matches and no collected match has a larger build
number; and over a history with matching builds numbered 3, 7 and 5 it
returns the build numbered 7. -/
theorem c7_highest_build_number :
    (∀ (builds : List JenkinsBuildRef) (getBuild : Nat → JenkinsBuild)
        (commitSha : String) (maxBuildsToCheck : Nat) (b : JenkinsBuild),
      getBuildByCommitSha builds getBuild commitSha maxBuildsToCheck = some b →
      b ∈ matchingBuilds builds getBuild commitSha maxBuildsToCheck
      ∧ ∀ x ∈ matchingBuilds builds getBuild commitSha maxBuildsToCheck,
          x.number ≤ b.number)
    ∧ ((getBuildByCommitSha [⟨3⟩, ⟨7⟩, ⟨5⟩] taggedBuild ("abc123") 50).map
        fun b => b.number) = some 7 := by
  refine ⟨?_, by decide⟩
  intro builds getBuild commitSha maxBuildsToCheck b h
  unfold getBuildByCommitSha at h
  split at h
  · exact absurd h (by simp)
  · cases hs : sortByNumberDesc (matchingBuilds builds getBuild commitSha maxBuildsToCheck) with
    | nil => rw [hs] at h; exact absurd h (by simp)
    | cons best t =>
      rw [hs] at h
      cases h
      exact sortByNumberDesc_head_max _ _ _ hs

/-- C7, witness: the general statement applied to the history with matches
numbered 3, 7 and 5 — the returned build 7 is a collected match and has
the largest number among them. -/
theorem c7_highest_build_number_witness :
    taggedBuild 7 ∈ matchingBuilds [⟨3⟩, ⟨7⟩, ⟨5⟩] taggedBuild ("abc123") 50
    ∧ ∀ x ∈ matchingBuilds [⟨3⟩, ⟨7⟩, ⟨5⟩] taggedBuild ("abc123") 50,
        x.number ≤ (taggedBuild 7).number :=
  c7_highest_build_number.1 [⟨3⟩, ⟨7⟩, ⟨5⟩] taggedBuild ("abc123") 50 (taggedBuild 7)
    (by decide)

/-! ## Claim C8 -/

/-- C8.  The per-provider status normalization is total with UNKNOWN as the
default: an Azure COMPLETED run whose result is skipped, unknown or absent
maps to UNKNOWN, an Azure run in the unknown state maps to UNKNOWN, a
missing Azure run maps to UNKNOWN, and a finished Jenkins build with no
recognized result maps to UNKNOWN — in every case a canonical
`PipelineStatus` value is returned and no error is raised. -/
theorem c8_unmapped_to_unknown :
    (∀ run : AzurePipelineRun, run.state = AzurePipelineRunStatus.completed →
        (run.result = some AzurePipelineRunResult.skipped
          ∨ run.result = some AzurePipelineRunResult.unknown ∨ run.result = none) →
        mapAzureStatusToPipelineStatus (some run) = PipelineStatus.unknown)
    ∧ (∀ run : AzurePipelineRun, run.state = AzurePipelineRunStatus.unknown →
        mapAzureStatusToPipelineStatus (some run) = PipelineStatus.unknown)
    ∧ mapAzureStatusToPipelineStatus none = PipelineStatus.unknown
    ∧ (∀ b : JenkinsBuild, b.building = false → b.result = none →
        convertBuildToPipelineStatus b = PipelineStatus.unknown) := by
  refine ⟨?_, ?_, rfl, ?_⟩
  · intro run hstate hres
    simp only [mapAzureStatusToPipelineStatus]
    rw [hstate]
    rcases hres with h | h | h <;> rw [h]
  · intro run hstate
    simp only [mapAzureStatusToPipelineStatus]
    rw [hstate]
  · intro b hb hr
    unfold convertBuildToPipelineStatus
    rw [hb, hr]
    simp

/-- C8, witness: the normalization defaults applied to a completed Azure
run with result skipped, an unknown-state Azure run, and a finished
Jenkins build without a result. -/
theorem c8_unmapped_to_unknown_witness :
    mapAzureStatusToPipelineStatus
        (some { id := 7, state := AzurePipelineRunStatus.completed,
                result := some AzurePipelineRunResult.skipped })
      = PipelineStatus.unknown
    ∧ mapAzureStatusToPipelineStatus
        (some { id := 8, state := AzurePipelineRunStatus.unknown })
      = PipelineStatus.unknown
    ∧ convertBuildToPipelineStatus { number := 1, building := false, result := none }
      = PipelineStatus.unknown :=
  ⟨c8_unmapped_to_unknown.1 _ rfl (Or.inl rfl),
   c8_unmapped_to_unknown.2.1 _ rfl,
   c8_unmapped_to_unknown.2.2.2 _ rfl rfl⟩

/-! ## Claim C9 -/

/-- C9.  `AzureCI.getPipeline` never rejects: for every client behavior and
every input the result is either the pipeline the un-caught computation
would produce or `none`, and whenever the underlying computation throws —
including transport faults of the raw Azure client — the caught result is
`none`, indistinguishable from the expected no-pipeline-yet outcome. -/
theorem c9_never_rejects (az : AzureClientModel) (componentName : String)
    (pullRequest : PullRequest) (pipelineStatus : Option PipelineStatus)
    (eventType : Option EventType) :
    ((∃ p, getPipeline az componentName pullRequest pipelineStatus eventType = some p
        ∧ getPipelineE az componentName pullRequest pipelineStatus eventType
            = Except.ok (some p))
      ∨ getPipeline az componentName pullRequest pipelineStatus eventType = none)
    ∧ (∀ e, getPipelineE az componentName pullRequest pipelineStatus eventType
          = Except.error e →
        getPipeline az componentName pullRequest pipelineStatus eventType = none) := by
  constructor
  · unfold getPipeline
    cases h : getPipelineE az componentName pullRequest pipelineStatus eventType with
    | ok v =>
      cases v with
      | some p => exact Or.inl ⟨p, rfl, rfl⟩
      | none => exact Or.inr rfl
    | error e => exact Or.inr rfl
  · intro e he
    unfold getPipeline
    rw [he]

/-- C9, witness: with a client whose every call throws a transport fault,
the facade returns `none` rather than propagating the error. -/
theorem c9_never_rejects_witness :
    getPipeline throwingClient ("comp") shaPullRequest none none = none :=
  (c9_never_rejects throwingClient ("comp") shaPullRequest none none).2
    ("transport fault") rfl

/-! ## Claim C10 -/

/-- C10.  Whenever one listing of pipeline runs succeeds,
`waitForAllPipelineRunsToFinish` resolves after that single attempt — for
every returned run list, including lists that still contain PENDING or
RUNNING runs — because the retry callback returns normally in both the
none-in-flight and the still-in-flight branch; the 30-retry backoff loop is
triggered only by thrown errors. -/
theorem c10_single_attempt (az : AzureClientModel) (componentName : String) (pid : Nat)
    (runs : List AzurePipelineRun)
    (h1 : az.getPipelineIdByName componentName = Except.ok (some pid))
    (h2 : az.listPipelineRuns pid = Except.ok runs) :
    waitForAllPipelineRunsToFinish az componentName = (Except.ok (), 1) := by
  have hbody : waitForAllBody az componentName 0 = Except.ok () := by
    unfold waitForAllBody
    rw [h1]
    simp only [bind, Except.bind, h2]
    split <;> rfl
  unfold waitForAllPipelineRunsToFinish
  exact retryRun_ok _ 0 30 hbody

/-- C10, witness: a client reporting one still-running run — canonical
status RUNNING — resolves after exactly one attempt. -/
theorem c10_single_attempt_witness :
    waitForAllPipelineRunsToFinish busyClient ("comp") = (Except.ok (), 1)
    ∧ mapAzureStatusToPipelineStatus (some runningRun) = PipelineStatus.running :=
  ⟨c10_single_attempt busyClient ("comp") 10 [runningRun] rfl rfl, rfl⟩

end Tssc
